import Mathlib

/-
Verification of the FIREDpy-NRT optical-scenes script
(src/scripts/optical_scenes.py) against its natural-language
specification.  The Python source is shallowly embedded: pure helpers
become Lean functions over exact rationals/integers, the effectful
download/adapter code becomes trace-producing functions whose events
mirror the side effects the source performs (API calls, directory
creation, file writes, log lines, sleeps), and fallible code returns
an explicit outcome or Except value.  External vendor SDK calls
(sentinelsat, landsatxplore, pyproj) are modelled as opaque events or
function parameters; everything the repository itself computes is
translated statement by statement.
-/

set_option autoImplicit false

namespace FiredPy

/-! ## Retry-download helper (source: download_product, lines 19-58)

The sentinelsat api.download call is modelled by a behaviour function
giving, for each attempt index, whether the call succeeds or raises
LTATriggered.  The loop body is translated clause for clause: on
success the function prints a success line and returns None; on
LTATriggered it prints a retry line and sleeps retry_wait seconds;
after the loop exhausts it prints the failure line and falls off the
end (Python implicitly returns None on every path). -/

/-- Result of one api.download call: success, or the LTATriggered signal. -/
inductive DlSignal where
  | ok
  | triggered
  deriving DecidableEq, Repr

/-- Python value returned by download_product (the source has a bare
return on success and an implicit fall-off return, both yield None;
no path produces a boolean). -/
inductive PyVal where
  | none
  | bool (b : Bool)
  deriving DecidableEq, Repr

/-- Observable events of one download_product run. -/
inductive Ev where
  | attempt
  | logTriggered
  | sleep (seconds : Nat)
  | logSuccess
  | logFail
  deriving DecidableEq, BEq, Repr

/-- The for-loop of download_product: remaining iterations, current
attempt index, producing the event trace and the returned Python value. -/
def downloadLoop (dl : Nat → DlSignal) (retry_wait : Nat) : Nat → Nat → List Ev × PyVal
  | 0, _ => ([Ev.logFail], PyVal.none)
  | Nat.succ k, i =>
    match dl i with
    | DlSignal.ok => ([Ev.attempt, Ev.logSuccess], PyVal.none)
    | DlSignal.triggered =>
      let rest := downloadLoop dl retry_wait k (i + 1)
      (Ev.attempt :: Ev.logTriggered :: Ev.sleep retry_wait :: rest.1, rest.2)

/-- download_product(api, product_id, output_directory, num_retries, retry_wait):
runs the retry loop from attempt index 0. -/
def download_product (dl : Nat → DlSignal) (num_retries : Nat) (retry_wait : Nat) :
    List Ev × PyVal :=
  downloadLoop dl retry_wait num_retries 0

/-- A download behaviour that raises LTATriggered on every call. -/
def alwaysTriggered : Nat → DlSignal := fun _ => DlSignal.triggered

/-- A download behaviour that raises LTATriggered on the first two calls
and succeeds on the third. -/
def triggeredTwiceThenOk : Nat → DlSignal :=
  fun i => if i < 2 then DlSignal.triggered else DlSignal.ok

/-! ## Catalog client adapters (source: get_sentinel lines 62-196,
get_landsat lines 199-338)

Each adapter is translated into the sequence of side effects it
performs, as a function of the configuration toggles and the number of
scenes the catalog query returns.  Directory creation in the source is
an exists-check followed by mkdir; the pair is one ensureDir event.
The vendor API login/query/download calls are opaque events. -/

/-- The configuration fields of config.py that the script reads. -/
structure Config where
  save_footprints : Bool
  download_scenes : Bool
  update_json : Bool
  delta_days_sentinel : ℤ
  delta_days_landsat : ℤ
  deriving DecidableEq, Repr

/-- Which output directory an exists-check/mkdir pair touches. -/
inductive DirKind where
  | eventDir
  | providerDir
  deriving DecidableEq, BEq, Repr

/-- Observable events of one adapter run. -/
inductive AdEv where
  | searchLog
  | login
  | query
  | logFound
  | ensureDir (k : DirKind)
  | logSaving
  | writeFootprintsFile
  | logDownloading
  | downloadAll
  | eeLogin
  | eeDownload
  | eeLogout
  | readJson
  | writePerSceneGeojson
  | writeJsonSidecar
  | logNoScenes
  | logout
  deriving DecidableEq, BEq, Repr

/-- Whether an adapter event creates a directory or writes/downloads a
file (the filesystem effects of steps 4-6). -/
def AdEv.isFsEffect : AdEv → Bool
  | AdEv.ensureDir _ => true
  | AdEv.writeFootprintsFile => true
  | AdEv.downloadAll => true
  | AdEv.eeDownload => true
  | AdEv.writePerSceneGeojson => true
  | AdEv.writeJsonSidecar => true
  | _ => false

/-- get_sentinel: print search line, build SentinelAPI session, query;
if products were found create the output directories and run the three
optional branches, else print the no-scenes line.  The source contains
no logout/close of the SentinelAPI session on any path. -/
def get_sentinel_trace (cfg : Config) (n : Nat) : List AdEv :=
  [AdEv.searchLog, AdEv.login, AdEv.query] ++
  (match n with
   | 0 => [AdEv.logNoScenes]
   | Nat.succ _ =>
     [AdEv.logFound, AdEv.ensureDir DirKind.eventDir, AdEv.ensureDir DirKind.providerDir] ++
     (if cfg.save_footprints then [AdEv.logSaving, AdEv.writeFootprintsFile] else []) ++
     (if cfg.download_scenes then [AdEv.logDownloading, AdEv.downloadAll] else []) ++
     (if cfg.update_json then [AdEv.readJson, AdEv.writeJsonSidecar] else []))

/-- get_landsat: print search line, build landsatxplore API session,
search; if scenes were found create the output directories and run the
optional branches (per-scene EarthExplorer downloads close their own ee
session; the update_json branch writes one geojson per scene and then
the sidecar), else print the no-scenes line; finally api.logout() runs
unconditionally as the last statement. -/
def get_landsat_trace (cfg : Config) (n : Nat) : List AdEv :=
  ([AdEv.searchLog, AdEv.login, AdEv.query] ++
   (match n with
    | 0 => [AdEv.logNoScenes]
    | Nat.succ k =>
      [AdEv.logFound, AdEv.ensureDir DirKind.eventDir, AdEv.ensureDir DirKind.providerDir] ++
      (if cfg.save_footprints then [AdEv.logSaving, AdEv.writeFootprintsFile] else []) ++
      (if cfg.download_scenes then
        [AdEv.logDownloading, AdEv.eeLogin] ++
          List.replicate (k + 1) AdEv.eeDownload ++ [AdEv.eeLogout]
       else []) ++
      (if cfg.update_json then
        [AdEv.readJson] ++ List.replicate (k + 1) AdEv.writePerSceneGeojson ++
          [AdEv.writeJsonSidecar]
       else []))) ++
  [AdEv.logout]

/-- A concrete configuration with every toggle off. -/
def cfgOff : Config :=
  { save_footprints := false
    download_scenes := false
    update_json := false
    delta_days_sentinel := 5
    delta_days_landsat := 16 }

/-! ## Footprint builders (source: get_footprint_point lines 341-375,
get_footprint_poly lines 377-397, get_bbox lines 400-401)

Coordinates are embedded as exact rationals.  A WKT polygon is
represented by its ring, the list of (lon, lat) vertices in emission
order; the vendor helper geojson_to_wkt and Python str-concatenation
are pure formatting of that vertex sequence. -/

/-- get_footprint_point: the five-vertex GeoJSON ring built around
(latitude, longitude), in source order, first vertex repeated last. -/
def get_footprint_point (latitude longitude delta_lat delta_lon : ℚ) : List (ℚ × ℚ) :=
  [(longitude - delta_lon, latitude - delta_lat),
   (longitude + delta_lon, latitude - delta_lat),
   (longitude + delta_lon, latitude + delta_lat),
   (longitude - delta_lon, latitude + delta_lat),
   (longitude - delta_lon, latitude - delta_lat)]

/-- get_footprint_poly: the vertex sequence of the WKT string
"polygon((maxlon maxlat, maxlon minlat, minlon minlat, minlon maxlat,
maxlon maxlat))" built by the source's string concatenation. -/
def get_footprint_poly (minlon minlat maxlon maxlat : ℚ) : List (ℚ × ℚ) :=
  [(maxlon, maxlat), (maxlon, minlat), (minlon, minlat), (minlon, maxlat), (maxlon, maxlat)]

/-- get_bbox: identity packaging into the (xmin, ymin, xmax, ymax)
tuple the Landsat API expects. -/
def get_bbox (minlon minlat maxlon maxlat : ℚ) : ℚ × ℚ × ℚ × ℚ :=
  (minlon, minlat, maxlon, maxlat)

/-- One step of an axis-aligned bounding-box accumulation over a ring:
accumulator is (minlon, minlat, maxlon, maxlat). -/
def bboxStep (acc : ℚ × ℚ × ℚ × ℚ) (q : ℚ × ℚ) : ℚ × ℚ × ℚ × ℚ :=
  (min acc.1 q.1, min acc.2.1 q.2, max acc.2.2.1 q.1, max acc.2.2.2 q.2)

/-- The axis-aligned bounding box described by a WKT ring (the
rectangle a parser recovers from the emitted polygon); none for an
empty ring. -/
def ringBBox : List (ℚ × ℚ) → Option (ℚ × ℚ × ℚ × ℚ)
  | [] => Option.none
  | p :: ps => Option.some (ps.foldl bboxStep (p.1, p.2, p.1, p.2))

/-! ## Calendar dates

Python datetime/timedelta day arithmetic is embedded through the
proleptic-Gregorian ordinal, exactly as date.toordinal computes it;
a date plus/minus timedelta(days = n) is ordinal plus/minus n. -/

/-- Gregorian leap-year rule. -/
def isLeapYear (y : Nat) : Bool :=
  (y % 4 == 0 && y % 100 != 0) || y % 400 == 0

/-- Length of month m (1-12) of year y. -/
def daysInMonth (y m : Nat) : Nat :=
  if m = 2 then (if isLeapYear y then 29 else 28)
  else if m = 4 ∨ m = 6 ∨ m = 9 ∨ m = 11 then 30
  else 31

/-- Days in year y strictly before month m. -/
def daysBeforeMonth (y m : Nat) : Nat :=
  ((List.range (m - 1)).map (fun k => daysInMonth y (k + 1))).foldl (· + ·) 0

/-- Proleptic-Gregorian ordinal of the date y-m-d (day 1 is 0001-01-01),
as datetime.date.toordinal computes it. -/
def dateToOrdinal (y m d : Nat) : ℤ :=
  ((365 * (y - 1) + (y - 1) / 4 - (y - 1) / 100 + (y - 1) / 400
    + daysBeforeMonth y m + d : Nat) : ℤ)

/-- Split a character list on a separator character, keeping empty
groups, with the semantics of str.split. -/
def splitOnChar (sep : Char) : List Char → List (List Char)
  | [] => [[]]
  | c :: cs =>
    match splitOnChar sep cs with
    | [] => if c = sep then [[], []] else [[c]]
    | g :: gs => if c = sep then [] :: g :: gs else (c :: g) :: gs

/-- Parse a nonempty all-digit character list as a decimal number. -/
def digitsToNat? (cs : List Char) : Option Nat :=
  if cs ≠ [] ∧ cs.all Char.isDigit then
    Option.some (cs.foldl (fun acc c => acc * 10 + (c.toNat - 48)) 0)
  else Option.none

/-- datetime.strptime with format "%Y-%m-%d", returning the date's
ordinal; malformed input raises ValueError. -/
def strptimeYMD (s : String) : Except String ℤ :=
  match splitOnChar '-' s.toList with
  | [ys, ms, ds] =>
    match digitsToNat? ys, digitsToNat? ms, digitsToNat? ds with
    | Option.some y, Option.some m, Option.some d => Except.ok (dateToOrdinal y m d)
    | _, _, _ => Except.error "ValueError"
  | _ => Except.error "ValueError"

/-! ## Event locator and orchestrator (source: parse_shp lines 457-494,
main lines 498-576)

A shapefile row carries the id column, the two date columns (already
parsed to ordinals, as strptime does on the matched row) and the
geometry's bounding box.  sys.exit() with no argument terminates the
Python process with exit status 0; an Outcome records either normal
completion or such a termination with its exit code and the logged
message. -/

/-- One row of the fire-events shapefile. -/
structure FireRow where
  id : String
  ig_date : ℤ
  last_date : ℤ
  bounds : ℚ × ℚ × ℚ × ℚ
  deriving DecidableEq, Repr

/-- Result of running a piece of the script: a value, or process
termination via sys.exit with the given exit status after printing the
given message. -/
inductive Outcome (α : Type) where
  | ok (a : α)
  | exit (code : Nat) (msg : String)
  deriving DecidableEq, Repr

/-- The message parse_shp prints before exiting on an unknown event id. -/
def invalidFireMsg : String :=
  "invalid fire ID provided! Make sure the ID exists in the fire events shapefile"

/-- The message main prints before exiting on an unknown satellite. -/
def wrongSatMsg : String := "Wrong satellite selected. Exiting!"

/-- parse_shp: look the event id up in the id column; when absent,
print the message and sys.exit() (status 0, since sys.exit is called
with no argument); when present, return (fid, start, end, geometry
bounds) from the first matching row. -/
def parse_shp (rows : List FireRow) (fid : String) :
    Outcome (String × ℤ × ℤ × (ℚ × ℚ × ℚ × ℚ)) :=
  match rows.find? (fun r => r.id == fid) with
  | Option.some r => Outcome.ok (fid, r.ig_date, r.last_date, r.bounds)
  | Option.none => Outcome.exit 0 invalidFireMsg

/-- The adjusted date window main computes: start minus the buffer,
end plus the buffer (timedelta(days = delta) on ordinals). -/
def adjustedWindow (start_date end_date delta : ℤ) : ℤ × ℤ :=
  (start_date - delta, end_date + delta)

/-- What main hands to the selected adapter: satellite tag, event id,
adjusted date window and the event's bounding box. -/
structure DispatchInfo where
  satellite : String
  event_id : String
  window : ℤ × ℤ
  bounds : ℚ × ℚ × ℚ × ℚ
  deriving DecidableEq, Repr

/-- main(event_id, satellite): load the event through parse_shp
(propagating its sys.exit), then branch on the satellite string,
adjusting the window by the provider-specific buffer; any other
satellite value prints the message and sys.exit()s (status 0). -/
def main (rows : List FireRow) (cfg : Config) (event_id satellite : String) :
    Outcome DispatchInfo :=
  match parse_shp rows event_id with
  | Outcome.exit c m => Outcome.exit c m
  | Outcome.ok (fid, s, e, b) =>
    if satellite = "sentinel" then
      Outcome.ok ⟨"sentinel", fid, adjustedWindow s e cfg.delta_days_sentinel, b⟩
    else if satellite = "landsat" then
      Outcome.ok ⟨"landsat", fid, adjustedWindow s e cfg.delta_days_landsat, b⟩
    else
      Outcome.exit 0 wrongSatMsg

/-- A one-row shapefile used for concrete runs. -/
def rows1 : List FireRow :=
  [{ id := "1", ig_date := dateToOrdinal 2020 6 1, last_date := dateToOrdinal 2020 6 10,
     bounds := (0, 0, 1, 1) }]

/-! ## Legacy JSON loader (source: parse_jsons lines 403-454)

The JSON document is a first-class value; numbers are rationals.
Python dictionary subscription raises KeyError when the key is absent
and list subscription raises IndexError when out of range, both
surfacing as Except errors.  The pyproj EPSG:3395 to EPSG:4326
transformer, an external library, is a function parameter returning
(lat, lon) from projected (x, y). -/

/-- A JSON value. -/
inductive Json where
  | str (s : String)
  | num (q : ℚ)
  | arr (xs : List Json)
  | obj (fields : List (String × Json))

/-- Python d[key] on a JSON object. -/
def Json.getKey (j : Json) (key : String) : Except String Json :=
  match j with
  | Json.obj fs =>
    match fs.find? (fun kv => kv.1 == key) with
    | Option.some kv => Except.ok kv.2
    | Option.none => Except.error ("KeyError: " ++ key)
  | _ => Except.error "TypeError: not a dict"

/-- Python xs[i] on a JSON array. -/
def Json.idx (j : Json) (i : Nat) : Except String Json :=
  match j with
  | Json.arr xs =>
    match xs.get? i with
    | Option.some x => Except.ok x
    | Option.none => Except.error "IndexError"
  | _ => Except.error "TypeError: not a list"

/-- Expect a JSON string (strptime raises TypeError otherwise). -/
def Json.asStr (j : Json) : Except String String :=
  match j with
  | Json.str s => Except.ok s
  | _ => Except.error "TypeError: not a str"

/-- Expect a JSON number. -/
def Json.asNum (j : Json) : Except String ℚ :=
  match j with
  | Json.num q => Except.ok q
  | _ => Except.error "TypeError: not a number"

/-- Expect a JSON array, exposing its elements. -/
def Json.asArr (j : Json) : Except String (List Json) :=
  match j with
  | Json.arr xs => Except.ok xs
  | _ => Except.error "TypeError: not a list"

/-- One element of the coordinate list: coord[0] and coord[1]. -/
def parsePoint (j : Json) : Except String (ℚ × ℚ) := do
  let x ← (← j.idx 0).asNum
  let y ← (← j.idx 1).asNum
  return (x, y)

/-- Python min over a list (raises ValueError on an empty sequence). -/
def qMin : List ℚ → Except String ℚ
  | [] => Except.error "ValueError: empty sequence"
  | x :: xs => Except.ok (xs.foldl min x)

/-- Python max over a list (raises ValueError on an empty sequence). -/
def qMax : List ℚ → Except String ℚ
  | [] => Except.error "ValueError: empty sequence"
  | x :: xs => Except.ok (xs.foldl max x)

/-- parse_jsons(filename): field reads, date parses, coordinate
extraction, extent computation and reprojection, in source statement
order.  Line 426 of the source reads
data['features'][0]['properties']['main_clim'] into a local that no
later statement uses; the read still happens before the dates are
parsed, so its KeyError fires on documents lacking the key.  T is the
pyproj transformer. -/
def parse_jsons (T : ℚ → ℚ → ℚ × ℚ) (data : Json) :
    Except String (Json × ℤ × ℤ × ℚ × ℚ × ℚ × ℚ) := do
  let features ← data.getKey "features"
  let f0 ← features.idx 0
  let props ← f0.getKey "properties"
  let sdJ ← props.getKey "first_date_7"
  let edJ ← props.getKey "last_date_7"
  let fid ← props.getKey "fid"
  let _climate ← props.getKey "main_clim"
  let start_date ← strptimeYMD (← sdJ.asStr)
  let end_date ← strptimeYMD (← edJ.asStr)
  let geom ← f0.getKey "geometry"
  let coords ← geom.getKey "coordinates"
  let c0 ← coords.idx 0
  let c00 ← c0.idx 0
  let pts ← (← c00.asArr).mapM parsePoint
  let minx ← qMin (pts.map Prod.fst)
  let maxx ← qMax (pts.map Prod.fst)
  let miny ← qMin (pts.map Prod.snd)
  let maxy ← qMax (pts.map Prod.snd)
  let mins := T minx miny
  let maxs := T maxx maxy
  return (fid, start_date, end_date, mins.1, mins.2, maxs.1, maxs.2)

/-- The properties object holding exactly the fields the legacy-input
interface names, with an optional extra list of fields appended. -/
def legacyProps (extra : List (String × Json)) : Json :=
  Json.obj ([("first_date_7", Json.str "2020-06-01"),
             ("last_date_7", Json.str "2020-06-10"),
             ("fid", Json.num 7)] ++ extra)

/-- A legacy document whose features[0] carries the given properties
object and a triply nested coordinate ring. -/
def legacyDoc (props : Json) : Json :=
  Json.obj [("features", Json.arr [Json.obj
    [("properties", props),
     ("geometry", Json.obj [("coordinates", Json.arr [Json.arr [Json.arr
       [Json.arr [Json.num 0, Json.num 0],
        Json.arr [Json.num 2, Json.num 1],
        Json.arr [Json.num 1, Json.num 3]]]])])]])]

/-! ## Claims -/

/-- Claim C1, counterexample: with satellite "modis" passed to main the
process does log the message and terminate, but sys.exit() is called
with no argument, so the exit status is 0 — every exit it can produce
there has code 0, refuting the claimed non-zero exit status. -/
theorem invalid_satellite_exit_status_zero :
    main rows1 cfgOff "1" "modis" = Outcome.exit 0 wrongSatMsg
    ∧ ∀ c m, main rows1 cfgOff "1" "modis" = Outcome.exit c m → c = 0 := by
  refine ⟨by decide, ?_⟩
  intro c m h
  have h0 : main rows1 cfgOff "1" "modis" = Outcome.exit 0 wrongSatMsg := by decide
  rw [h0] at h
  injection h with h1 h2
  exact h1.symm

/-- Claim C1, amended: for every run with invalid user input — an
unknown satellite passed to main, or an event ID with no matching
shapefile row — the process logs a message and terminates, but with
exit status 0 (bare sys.exit()), not a non-zero status. -/
theorem invalid_input_logs_and_exits_zero (rows : List FireRow) (cfg : Config)
    (eid sat : String) :
    (rows.find? (fun r => r.id == eid) = Option.none →
      main rows cfg eid sat = Outcome.exit 0 invalidFireMsg)
    ∧ (∀ r, rows.find? (fun r => r.id == eid) = Option.some r →
        sat ≠ "sentinel" → sat ≠ "landsat" →
        main rows cfg eid sat = Outcome.exit 0 wrongSatMsg) := by
  constructor
  · intro h
    simp [main, parse_shp, h]
  · intro r h hs hl
    simp [main, parse_shp, h, hs, hl]

/-- Claim C1, witness: a concrete absent event id exits with status 0
and the invalid-id message; a concrete unknown satellite with a present
event id exits with status 0 and the wrong-satellite message. -/
theorem invalid_input_logs_and_exits_zero_instance :
    (rows1.find? (fun r => r.id == "2") = Option.none
      ∧ main rows1 cfgOff "2" "landsat" = Outcome.exit 0 invalidFireMsg)
    ∧ ("modis" ≠ "sentinel" ∧ "modis" ≠ "landsat"
      ∧ main rows1 cfgOff "1" "modis" = Outcome.exit 0 wrongSatMsg) :=
  ⟨⟨by decide, (invalid_input_logs_and_exits_zero rows1 cfgOff "2" "landsat").1 (by decide)⟩,
   by decide, by decide,
   (invalid_input_logs_and_exits_zero rows1 cfgOff "1" "modis").2
     ⟨"1", dateToOrdinal 2020 6 1, dateToOrdinal 2020 6 10, (0, 0, 1, 1)⟩
     (by decide) (by decide) (by decide)⟩

/-- Claim C2, counterexample: get_sentinel opens a provider session
(login) but its trace contains no logout on the zero-scene path (nor on
a found path), refuting session release on every exit path of each
adapter. -/
theorem sentinel_session_never_closed_example :
    AdEv.login ∈ get_sentinel_trace cfgOff 0
    ∧ AdEv.logout ∉ get_sentinel_trace cfgOff 0
    ∧ AdEv.logout ∉ get_sentinel_trace cfgOff 3 := by
  refine ⟨?_, ?_, ?_⟩ <;> simp [get_sentinel_trace, cfgOff]

/-- Claim C2, amended: get_landsat releases its provider session as the
final action on every execution path, including the zero-scene early
branch; get_sentinel never releases its session on any path. -/
theorem landsat_closes_session_sentinel_never (cfg : Config) (n : Nat) :
    (∃ t, get_landsat_trace cfg n = t ++ [AdEv.logout])
    ∧ AdEv.logout ∉ get_sentinel_trace cfg n := by
  constructor
  · exact ⟨_, rfl⟩
  · rcases cfg with ⟨sf, ds, uj, dds, ddl⟩
    cases n <;> cases sf <;> cases ds <;> cases uj <;>
      simp [get_sentinel_trace, List.mem_replicate]

/-- Claim C3, counterexample: download_product with an
always-triggered download and 3 attempts returns Python None (its only
return value on any path), not the claimed boolean failure result. -/
theorem download_product_no_boolean_result :
    (download_product alwaysTriggered 3 120).2 = PyVal.none
    ∧ (download_product alwaysTriggered 3 120).2 ≠ PyVal.bool false := by
  decide

/-- Claim C3, amended: with an always-triggered download function and
max_attempts = 3, download_product invokes the download exactly 3
times, sleeps after each triggered attempt, logs the failure as its
last action, and returns normally with None (no boolean) rather than
raising. -/
theorem download_product_always_triggered_spec :
    download_product alwaysTriggered 3 120
      = ([Ev.attempt, Ev.logTriggered, Ev.sleep 120,
          Ev.attempt, Ev.logTriggered, Ev.sleep 120,
          Ev.attempt, Ev.logTriggered, Ev.sleep 120, Ev.logFail], PyVal.none)
    ∧ (download_product alwaysTriggered 3 120).1.count Ev.attempt = 3
    ∧ (download_product alwaysTriggered 3 120).1.count (Ev.sleep 120) = 3
    ∧ (download_product alwaysTriggered 3 120).1.getLast? = Option.some Ev.logFail := by
  decide

/-- Claim C4: with a download function triggered twice then
successful and max_attempts = 10, download_product completes
successfully after exactly 3 invocations, sleeping twice and never
after the successful attempt (the success log is the final event). -/
theorem download_product_recovers_after_two_triggers :
    download_product triggeredTwiceThenOk 10 120
      = ([Ev.attempt, Ev.logTriggered, Ev.sleep 120,
          Ev.attempt, Ev.logTriggered, Ev.sleep 120,
          Ev.attempt, Ev.logSuccess], PyVal.none)
    ∧ (download_product triggeredTwiceThenOk 10 120).1.count Ev.attempt = 3
    ∧ (download_product triggeredTwiceThenOk 10 120).1.count (Ev.sleep 120) = 2
    ∧ (download_product triggeredTwiceThenOk 10 120).1.getLast? = Option.some Ev.logSuccess := by
  decide

/-- Claim C5: on zero matching scenes each adapter performs only the
search log, session open and query followed by the no-scenes log (plus
the unconditional logout for get_landsat): no directory creation, no
footprint or download file writes, the no-scenes outcome is logged, and
the run completes normally. -/
theorem zero_scenes_no_fs_effects (cfg : Config) :
    get_sentinel_trace cfg 0 = [AdEv.searchLog, AdEv.login, AdEv.query, AdEv.logNoScenes]
    ∧ get_landsat_trace cfg 0
      = [AdEv.searchLog, AdEv.login, AdEv.query, AdEv.logNoScenes, AdEv.logout]
    ∧ (get_sentinel_trace cfg 0).all (fun e => ! e.isFsEffect) = true
    ∧ (get_landsat_trace cfg 0).all (fun e => ! e.isFsEffect) = true
    ∧ AdEv.logNoScenes ∈ get_sentinel_trace cfg 0
    ∧ AdEv.logNoScenes ∈ get_landsat_trace cfg 0 := by
  refine ⟨rfl, rfl, rfl, rfl, ?_, ?_⟩ <;> simp [get_sentinel_trace, get_landsat_trace]

/-- Claim C6: the window main dispatches to either adapter is the
native dates buffered by the provider-specific delta; for non-negative
buffers it contains the native window, and the 2020-06-01/2020-06-10
example with a 10-day buffer yields 2020-05-22 through 2020-06-20. -/
theorem adjusted_window_spec (s e δ : ℤ) (hδ : 0 ≤ δ) (hse : s ≤ e) :
    adjustedWindow s e δ = (s - δ, e + δ)
    ∧ (adjustedWindow s e δ).1 ≤ s ∧ s ≤ e ∧ e ≤ (adjustedWindow s e δ).2
    ∧ adjustedWindow (dateToOrdinal 2020 6 1) (dateToOrdinal 2020 6 10) 10
        = (dateToOrdinal 2020 5 22, dateToOrdinal 2020 6 20)
    ∧ (∀ (r : FireRow) (cfg : Config),
        main [r] cfg r.id "sentinel"
          = Outcome.ok ⟨"sentinel", r.id,
              adjustedWindow r.ig_date r.last_date cfg.delta_days_sentinel, r.bounds⟩
        ∧ main [r] cfg r.id "landsat"
          = Outcome.ok ⟨"landsat", r.id,
              adjustedWindow r.ig_date r.last_date cfg.delta_days_landsat, r.bounds⟩) := by
  refine ⟨rfl, ?_, hse, ?_, by decide, ?_⟩
  · simp only [adjustedWindow]
    linarith
  · simp only [adjustedWindow]
    linarith
  · intro r cfg
    constructor <;> simp [main, parse_shp, List.find?]

/-- Claim C6, witness: the buffer hypotheses hold at the concrete
2020 example dates with a 10-day buffer, and the window is the
subtraction/addition of the buffer. -/
theorem adjusted_window_spec_instance :
    (0 : ℤ) ≤ 10
    ∧ dateToOrdinal 2020 6 1 ≤ dateToOrdinal 2020 6 10
    ∧ adjustedWindow (dateToOrdinal 2020 6 1) (dateToOrdinal 2020 6 10) 10
        = (dateToOrdinal 2020 6 1 - 10, dateToOrdinal 2020 6 10 + 10) :=
  ⟨by decide, by decide,
   (adjusted_window_spec (dateToOrdinal 2020 6 1) (dateToOrdinal 2020 6 10) 10
      (by decide) (by decide)).1⟩

/-- Claim C7: for positive deltas the point footprint is a closed
five-vertex ring (first vertex equal to last) whose bounding box is
exactly (lon - dlon, lat - dlat, lon + dlon, lat + dlat). -/
theorem footprint_point_ring_spec (lat lon dlat dlon : ℚ)
    (hlat : 0 < dlat) (hlon : 0 < dlon) :
    (get_footprint_point lat lon dlat dlon).length = 5
    ∧ (get_footprint_point lat lon dlat dlon).head?
        = (get_footprint_point lat lon dlat dlon).getLast?
    ∧ ringBBox (get_footprint_point lat lon dlat dlon)
        = Option.some (lon - dlon, lat - dlat, lon + dlon, lat + dlat) := by
  have h1 : lon - dlon ≤ lon + dlon := by linarith
  have h2 : lat - dlat ≤ lat + dlat := by linarith
  refine ⟨rfl, rfl, ?_⟩
  simp [get_footprint_point, ringBBox, bboxStep, min_eq_left h1, min_eq_left h2,
        max_eq_right h1, max_eq_right h2, max_eq_left h1, max_eq_left h2,
        min_self, max_self]

/-- Claim C7, witness: the positivity hypotheses hold at lat 1, lon 2
with both deltas 1, and the ring properties follow there. -/
theorem footprint_point_ring_spec_instance :
    (0 : ℚ) < 1
    ∧ ((get_footprint_point 1 2 1 1).length = 5
      ∧ (get_footprint_point 1 2 1 1).head? = (get_footprint_point 1 2 1 1).getLast?
      ∧ ringBBox (get_footprint_point 1 2 1 1)
          = Option.some (2 - 1, 1 - 1, 2 + 1, 1 + 1)) :=
  ⟨by norm_num, footprint_point_ring_spec 1 2 1 1 (by norm_num) (by norm_num)⟩

/-- Claim C8: get_footprint_poly emits exactly the vertex sequence
(max,max), (max,min), (min,min), (min,max), (max,max): five vertices
with the first repeated as the last. -/
theorem footprint_poly_vertex_order (minlon minlat maxlon maxlat : ℚ) :
    get_footprint_poly minlon minlat maxlon maxlat
      = [(maxlon, maxlat), (maxlon, minlat), (minlon, minlat),
         (minlon, maxlat), (maxlon, maxlat)]
    ∧ (get_footprint_poly minlon minlat maxlon maxlat).head?
        = Option.some (maxlon, maxlat)
    ∧ (get_footprint_poly minlon minlat maxlon maxlat).getLast?
        = Option.some (maxlon, maxlat)
    ∧ (get_footprint_poly minlon minlat maxlon maxlat).length = 5 :=
  ⟨rfl, rfl, rfl, rfl⟩

/-- Claim C9: for ordered bounds the rectangle recovered from the WKT
ring of get_footprint_poly is exactly the tuple get_bbox returns, and
get_bbox is identity packaging of its four arguments. -/
theorem footprint_poly_bbox_matches_tuple (minlon minlat maxlon maxlat : ℚ)
    (hlon : minlon < maxlon) (hlat : minlat < maxlat) :
    ringBBox (get_footprint_poly minlon minlat maxlon maxlat)
      = Option.some (get_bbox minlon minlat maxlon maxlat)
    ∧ get_bbox minlon minlat maxlon maxlat = (minlon, minlat, maxlon, maxlat) := by
  have h1 : minlon ≤ maxlon := le_of_lt hlon
  have h2 : minlat ≤ maxlat := le_of_lt hlat
  refine ⟨?_, rfl⟩
  simp [get_footprint_poly, get_bbox, ringBBox, bboxStep,
        min_eq_right h1, min_eq_right h2, min_eq_left h1, min_eq_left h2,
        max_eq_left h1, max_eq_left h2, min_self, max_self]

/-- Claim C9, witness: the ordering hypotheses hold at bounds
(0, 0, 1, 1) and there the parsed rectangle equals the bbox tuple. -/
theorem footprint_poly_bbox_matches_tuple_instance :
    (0 : ℚ) < 1
    ∧ ringBBox (get_footprint_poly 0 0 1 1) = Option.some (get_bbox 0 0 1 1)
    ∧ get_bbox 0 0 1 1 = (0, 0, 1, 1) :=
  ⟨by norm_num,
   (footprint_poly_bbox_matches_tuple 0 0 1 1 (by norm_num) (by norm_num)).1,
   (footprint_poly_bbox_matches_tuple 0 0 1 1 (by norm_num) (by norm_num)).2⟩

/-- Claim C10: a legacy document carrying only the interface fields
(first_date_7, last_date_7, fid, geometry.coordinates) makes
parse_jsons fail with the key-not-found error for main_clim, for any
transformer; adding a main_clim field of any value makes the same
document parse to the event tuple, which does not depend on that
value. -/
theorem parse_jsons_requires_main_clim :
    (∀ T, parse_jsons T (legacyDoc (legacyProps []))
        = Except.error ("KeyError: " ++ "main_clim"))
    ∧ (∀ T (c : Json), parse_jsons T (legacyDoc (legacyProps [("main_clim", c)]))
        = Except.ok (Json.num 7, dateToOrdinal 2020 6 1, dateToOrdinal 2020 6 10,
            (T 0 0).1, (T 0 0).2, (T 2 3).1, (T 2 3).2)) := by
  constructor
  · intro T
    rfl
  · intro T c
    rfl

end FiredPy
